import Mathlib

/-!
Shallow embedding of the vnpy_portfoliostrategy package (bar aggregation in
utility.py, the strategy template in template.py, and the strategy engine in
engine.py), together with proofs about the embedded operations.

Modelling conventions:
* Python dicts keyed by instrument are embedded as functions from String,
  except the engine strategy registry, which is an association list because
  the source enumerates it when persisting settings.
* Machine floats carried by ticks and bars (prices, volume, turnover) only
  flow through comparisons, max or min, and additions here, so they are
  embedded as Int.
* A tick or bar datetime keeps the fields the source reads: day, hour,
  minute, second, microsecond.
* Python exceptions are embedded explicitly: an operation that can raise
  returns its successor state together with an Option PyErr.
-/

inductive Direction where
  | LONG
  | SHORT
  deriving DecidableEq

inductive Offset where
  | OPEN
  | CLOSE
  deriving DecidableEq

inductive PyErr where
  | attributeError (msg : String)
  deriving DecidableEq

structure DT where
  day : Nat
  hour : Nat
  minute : Nat
  second : Nat
  microsecond : Nat
  deriving DecidableEq

/-- vnpy BarData; the key field symbol stands for vt_symbol, and the
gateway_name / exchange / interval fields the code only copies are omitted. -/
structure BarData where
  symbol : String
  datetime : DT
  open_price : Int
  high_price : Int
  low_price : Int
  close_price : Int
  volume : Int
  turnover : Int
  open_interest : Int
  deriving DecidableEq

/-- vnpy TickData restricted to the fields PortfolioBarGenerator reads. -/
structure TickData where
  vt_symbol : String
  datetime : DT
  last_price : Int
  volume : Int
  turnover : Int
  open_interest : Int
  deriving DecidableEq

/-- State of PortfolioBarGenerator for the minute-bar part (utility.py):
the per-symbol in-progress bars, last ticks and last datetimes, plus the
list of bars pushed to the on_bar callback, each recorded with the value it
had at the moment of the push. -/
structure PBGState where
  bars : String → Option BarData
  last_ticks : String → Option TickData
  last_dts : String → Option DT
  emitted : List BarData

/-- datetime.replace(second=0, microsecond=0) applied to a finished bar. -/
def finalizeMinute (b : BarData) : BarData :=
  { b with datetime := { b.datetime with second := 0, microsecond := 0 } }

/-- The fresh BarData built by update_tick when no in-progress bar exists
(utility.py lines 49-61).  volume and turnover start at the BarData default 0. -/
def newMinuteBar (tick : TickData) : BarData :=
  { symbol := tick.vt_symbol
    datetime := tick.datetime
    open_price := tick.last_price
    high_price := tick.last_price
    low_price := tick.last_price
    close_price := tick.last_price
    volume := 0
    turnover := 0
    open_interest := tick.open_interest }

/-- The in-place update of an existing in-progress bar by a tick
(utility.py lines 63-67). -/
def applyTick (b : BarData) (tick : TickData) : BarData :=
  { b with
    high_price := max b.high_price tick.last_price
    low_price := min b.low_price tick.last_price
    close_price := tick.last_price
    open_interest := tick.open_interest
    datetime := tick.datetime }

/-- Volume and turnover accumulation from cumulative tick counters
(utility.py lines 69-72): deltas are floored at 0. -/
def addTickVolume (b : BarData) (lt : Option TickData) (tick : TickData) : BarData :=
  match lt with
  | none => b
  | some last =>
      { b with
        volume := b.volume + max (tick.volume - last.volume) 0
        turnover := b.turnover + max (tick.turnover - last.turnover) 0 }

/-- The finalize-and-push condition of update_tick (utility.py lines 42-43):
a previous tick datetime exists, its minute field differs from the incoming
tick, and an in-progress bar exists. -/
def emitCond (st : PBGState) (tick : TickData) : Bool :=
  match st.last_dts tick.vt_symbol, st.bars tick.vt_symbol with
  | some d, some _ => decide (d.minute ≠ tick.datetime.minute)
  | _, _ => false

/-- PortfolioBarGenerator.update_tick (utility.py lines 34-76).

The guard translates the Python truthiness test (not tick.last_price), which
only filters a last price equal to 0.  After the finalize-and-push block sets
self.bars[vt_symbol] = None, the local variable bar still references the
pushed object, so the source then mutates that dead object in place and never
stores a replacement; the map therefore keeps None for the symbol, which is
what the emitCond branch below records, and the emitted list keeps the value
passed to on_bar at the moment of the call. -/
def update_tick (st : PBGState) (tick : TickData) : PBGState :=
  if tick.last_price = 0 then st
  else
    let sym := tick.vt_symbol
    let emitted1 : List BarData :=
      if emitCond st tick then
        match st.bars sym with
        | some b => st.emitted ++ [finalizeMinute b]
        | none => st.emitted
      else st.emitted
    let lt := st.last_ticks sym
    let bars1 : String → Option BarData :=
      match st.bars sym with
      | none => fun s => if s = sym then some (addTickVolume (newMinuteBar tick) lt tick) else st.bars s
      | some b =>
          if emitCond st tick then fun s => if s = sym then none else st.bars s
          else fun s => if s = sym then some (addTickVolume (applyTick b tick) lt tick) else st.bars s
    { bars := bars1
      last_ticks := fun s => if s = sym then some tick else st.last_ticks s
      last_dts := fun s => if s = sym then some tick.datetime else st.last_dts s
      emitted := emitted1 }

/-- State of the hour-window part of PortfolioBarGenerator. -/
structure HourGenState where
  hour_bars : String → Option BarData

/-- Merging a finished minute bar into the running hour bar
(utility.py lines 155-167 and 194-206). -/
def mergeIntoHour (hb bar : BarData) : BarData :=
  { hb with
    high_price := max hb.high_price bar.high_price
    low_price := min hb.low_price bar.low_price
    close_price := bar.close_price
    volume := hb.volume + bar.volume
    turnover := hb.turnover + bar.turnover
    open_interest := bar.open_interest }

/-- The message of the AttributeError raised at utility.py line 210: the
push statement is self.on_hour_bar(finished_bar), but the class only defines
a method named on_hour_bars (line 212), so attribute lookup fails. -/
def missingHourAttrMsg : String :=
  "PortfolioBarGenerator object has no attribute on_hour_bar"

/-- PortfolioBarGenerator.update_bar_hour_window (utility.py lines 127-210).
Returns the mutated state together with the exception, if any, that escapes
the call; the state reflects every mutation performed before the raise. -/
def update_bar_hour_window (st : HourGenState) (bar : BarData) : HourGenState × Option PyErr :=
  let sym := bar.symbol
  match st.hour_bars sym with
  | none =>
      let dt : DT := { bar.datetime with minute := 0, second := 0, microsecond := 0 }
      let hour_bar : BarData := { bar with datetime := dt }
      ({ hour_bars := fun s => if s = sym then some hour_bar else st.hour_bars s }, none)
  | some hb =>
      if bar.datetime.minute = 59 then
        -- finished_bar is set and self.hour_bars[sym] is cleared, then the
        -- push at line 210 raises AttributeError before anything is emitted.
        ({ hour_bars := fun s => if s = sym then none else st.hour_bars s },
          some (PyErr.attributeError missingHourAttrMsg))
      else if bar.datetime.hour ≠ hb.datetime.hour then
        let dt : DT := { bar.datetime with minute := 0, second := 0, microsecond := 0 }
        let nb : BarData := { bar with datetime := dt }
        ({ hour_bars := fun s => if s = sym then some nb else st.hour_bars s },
          some (PyErr.attributeError missingHourAttrMsg))
      else
        ({ hour_bars := fun s => if s = sym then some (mergeIntoHour hb bar) else st.hour_bars s },
          none)

/-- State for the N-hour resampling handler on_hour_bars. -/
structure HourWindowState where
  window : Nat
  interval_count : Nat
  window_bars : String → Option BarData
  emittedWindow : List BarData

/-- PortfolioBarGenerator.on_hour_bars (utility.py lines 212-249).  Note that
because of the naming slip at line 210 this handler is unreachable from
update_bar_hour_window. -/
def on_hour_bars (st : HourWindowState) (bar : BarData) : HourWindowState :=
  if st.window = 1 then
    { st with emittedWindow := st.emittedWindow ++ [bar] }
  else
    let sym := bar.symbol
    let wb0 : BarData :=
      match st.window_bars sym with
      | none =>
          { bar with close_price := 0, volume := 0, turnover := 0, open_interest := 0 }
      | some wb =>
          { wb with
            high_price := max wb.high_price bar.high_price
            low_price := min wb.low_price bar.low_price }
    let wb1 : BarData :=
      { wb0 with
        close_price := bar.close_price
        volume := wb0.volume + bar.volume
        turnover := wb0.turnover + bar.turnover
        open_interest := bar.open_interest }
    let cnt := st.interval_count + 1
    if cnt % st.window = 0 then
      { st with
        window_bars := fun s => if s = sym then none else st.window_bars s
        interval_count := 0
        emittedWindow := st.emittedWindow ++ [wb1] }
    else
      { st with
        window_bars := fun s => if s = sym then some wb1 else st.window_bars s
        interval_count := cnt }

/-- StrategyTemplate state (template.py): the fields the verified operations
touch.  pos_data and target_data are defaultdict(int), embedded as total
functions defaulting to 0. -/
structure Strategy where
  strategy_name : String
  vt_symbols : List String
  inited : Bool
  trading : Bool
  pos_data : String → Int
  target_data : String → Int
  active_orderids : List String

/-- The arguments of one template-level order call: buy, sell, short and
cover all funnel into send_order with these parameters. -/
structure OrderCall where
  vt_symbol : String
  direction : Direction
  offset : Offset
  price : Int
  volume : Int
  deriving DecidableEq

/-- StrategyTemplate.get_pos: pos_data.get(vt_symbol, 0). -/
def get_pos (s : Strategy) (vt_symbol : String) : Int :=
  s.pos_data vt_symbol

/-- StrategyTemplate.get_target: target_data[vt_symbol] on a defaultdict. -/
def get_target (s : Strategy) (vt_symbol : String) : Int :=
  s.target_data vt_symbol

/-- set.add on the active-order-id set. -/
def addOrderid (ids : List String) (i : String) : List String :=
  if i ∈ ids then ids else ids ++ [i]

/-- StrategyTemplate.send_order (template.py lines 152-173).  The engine
collaborator is the parameter engineSend, mapping the forwarded request to
the vt_orderids it accepts.  The result is the returned id list, the
strategy after recording the ids, and the list of requests actually
forwarded to the engine (empty when the trading gate is closed). -/
def send_order (engineSend : OrderCall → List String) (s : Strategy) (c : OrderCall) :
    List String × Strategy × List OrderCall :=
  if s.trading then
    let vt_orderids := engineSend c
    (vt_orderids,
      { s with active_orderids := vt_orderids.foldl addOrderid s.active_orderids },
      [c])
  else ([], s, [])

/-- StrategyTemplate.buy: open long. -/
def buy (engineSend : OrderCall → List String) (s : Strategy)
    (vt_symbol : String) (price volume : Int) : List String × Strategy × List OrderCall :=
  send_order engineSend s
    { vt_symbol := vt_symbol, direction := Direction.LONG, offset := Offset.OPEN,
      price := price, volume := volume }

/-- StrategyTemplate.sell: close long. -/
def sell (engineSend : OrderCall → List String) (s : Strategy)
    (vt_symbol : String) (price volume : Int) : List String × Strategy × List OrderCall :=
  send_order engineSend s
    { vt_symbol := vt_symbol, direction := Direction.SHORT, offset := Offset.CLOSE,
      price := price, volume := volume }

/-- StrategyTemplate.short: open short. -/
def short (engineSend : OrderCall → List String) (s : Strategy)
    (vt_symbol : String) (price volume : Int) : List String × Strategy × List OrderCall :=
  send_order engineSend s
    { vt_symbol := vt_symbol, direction := Direction.SHORT, offset := Offset.OPEN,
      price := price, volume := volume }

/-- StrategyTemplate.cover: close short. -/
def cover (engineSend : OrderCall → List String) (s : Strategy)
    (vt_symbol : String) (price volume : Int) : List String × Strategy × List OrderCall :=
  send_order engineSend s
    { vt_symbol := vt_symbol, direction := Direction.LONG, offset := Offset.CLOSE,
      price := price, volume := volume }

/-- The body of the per-instrument loop of StrategyTemplate.rebalance_portfolio
(template.py lines 202-257).  calcPrice is the virtual calculate_price hook
(default implementation returns the reference price).  Returns the strategy
after the loop body and the order requests the body forwarded to the engine. -/
def rebalanceEntry (engineSend : OrderCall → List String)
    (calcPrice : String → Direction → Int → Int)
    (s : Strategy) (vt_symbol : String) (bar : BarData) : Strategy × List OrderCall :=
  let target := get_target s vt_symbol
  let pos := get_pos s vt_symbol
  let diff := target - pos
  if 0 < diff then
    let order_price := calcPrice vt_symbol Direction.LONG bar.close_price
    let cover_volume : Int := if pos < 0 then min diff |pos| else 0
    let buy_volume : Int := if pos < 0 then diff - cover_volume else diff
    let step1 : Strategy × List OrderCall :=
      if cover_volume ≠ 0 then
        ((cover engineSend s vt_symbol order_price cover_volume).2.1,
         (cover engineSend s vt_symbol order_price cover_volume).2.2)
      else (s, [])
    let step2 : Strategy × List OrderCall :=
      if buy_volume ≠ 0 then
        ((buy engineSend step1.1 vt_symbol order_price buy_volume).2.1,
         (buy engineSend step1.1 vt_symbol order_price buy_volume).2.2)
      else (step1.1, [])
    (step2.1, step1.2 ++ step2.2)
  else if diff < 0 then
    let order_price := calcPrice vt_symbol Direction.SHORT bar.close_price
    let sell_volume : Int := if 0 < pos then min |diff| pos else 0
    let short_volume : Int := if 0 < pos then |diff| - sell_volume else |diff|
    let step1 : Strategy × List OrderCall :=
      if sell_volume ≠ 0 then
        ((sell engineSend s vt_symbol order_price sell_volume).2.1,
         (sell engineSend s vt_symbol order_price sell_volume).2.2)
      else (s, [])
    let step2 : Strategy × List OrderCall :=
      if short_volume ≠ 0 then
        ((short engineSend step1.1 vt_symbol order_price short_volume).2.1,
         (short engineSend step1.1 vt_symbol order_price short_volume).2.2)
      else (step1.1, [])
    (step2.1, step1.2 ++ step2.2)
  else (s, [])

/-- StrategyTemplate.rebalance_portfolio (template.py lines 197-257), viewed
through the order requests it forwards to the engine.  The initial
cancel_all() only issues cancellations of previously active orders and is
not part of the order stream, so it is not modelled here.  The bar slice is
an association list reflecting Python dict iteration order. -/
def rebalance_portfolio (engineSend : OrderCall → List String)
    (calcPrice : String → Direction → Int → Int)
    (s : Strategy) (bars : List (String × BarData)) : Strategy × List OrderCall :=
  bars.foldl
    (fun acc p =>
      let r := rebalanceEntry engineSend calcPrice acc.1 p.1 p.2
      (r.1, acc.2 ++ r.2))
    (s, [])

/-- vnpy TradeData restricted to the fields the engine and template read. -/
structure TradeData where
  vt_tradeid : String
  vt_orderid : String
  vt_symbol : String
  direction : Direction
  volume : Int
  deriving DecidableEq

/-- Outcome of running a strategy callback: either the strategy state after
a normal return, or the (possibly partially mutated) strategy state at the
moment an exception escaped, together with the traceback text. -/
inductive CallOutcome where
  | ok (s : Strategy)
  | exn (s : Strategy) (msg : String)

/-- StrategyEngine state (engine.py): the registry is an association list
from strategy name to strategy (a Python dict preserving insertion order);
setting_file and data_file model the content persisted by save_json. -/
structure Engine where
  strategies : List (String × Strategy)
  symbol_strategy_map : String → List String
  orderid_strategy_map : String → Option String
  vt_tradeids : List String
  strategy_data : List String
  setting_file : List String
  data_file : List String
  logs : List String

/-- StrategyEngine.write_log (engine.py lines 592-599). -/
def write_log (e : Engine) (msg : String) (sname : Option String) : Engine :=
  let m : String :=
    match sname with
    | some n => n ++ ": " ++ msg
    | none => msg
  { e with logs := e.logs ++ [m] }

/-- Lookup of a strategy by name in the registry. -/
def getStrategy (e : Engine) (n : String) : Option Strategy :=
  (e.strategies.find? (fun p => p.1 == n)).map Prod.snd

/-- Replacing the state of the named strategy in the registry. -/
def setStrategy (e : Engine) (n : String) (s : Strategy) : Engine :=
  { e with strategies := e.strategies.map (fun p => if p.1 == n then (p.1, s) else p) }

/-- The log message of the fault boundary (engine.py line 340): the
localized text followed by the traceback. -/
def faultMsg (tb : String) : String :=
  "Exception raised, strategy stopped: " ++ tb

/-- StrategyEngine.call_strategy_func (engine.py lines 329-341).  The
callback is a function on the strategy state; if it raises, the engine sets
trading and inited to false on the state the callback left behind and logs
the failure.  Totality of this definition is the embedded form of the fact
that the wrapper itself returns normally in every case. -/
def call_strategy_func (e : Engine) (n : String) (f : Strategy → CallOutcome) : Engine :=
  match getStrategy e n with
  | none => e
  | some s =>
      match f s with
      | CallOutcome.ok s2 => setStrategy e n s2
      | CallOutcome.exn sp tb =>
          let s2 := { sp with trading := false, inited := false }
          write_log (setStrategy e n s2) (faultMsg tb) (some s.strategy_name)

/-- StrategyTemplate.update_trade (template.py lines 122-127). -/
def update_trade (s : Strategy) (t : TradeData) : Strategy :=
  if t.direction = Direction.LONG then
    { s with pos_data := fun k => if k = t.vt_symbol then s.pos_data k + t.volume else s.pos_data k }
  else
    { s with pos_data := fun k => if k = t.vt_symbol then s.pos_data k - t.volume else s.pos_data k }

/-- StrategyEngine.process_trade_event (engine.py lines 140-154). -/
def process_trade_event (e : Engine) (t : TradeData) : Engine :=
  if t.vt_tradeid ∈ e.vt_tradeids then e
  else
    let e1 : Engine := { e with vt_tradeids := t.vt_tradeid :: e.vt_tradeids }
    match e1.orderid_strategy_map t.vt_orderid with
    | none => e1
    | some n => call_strategy_func e1 n (fun s => CallOutcome.ok (update_trade s t))

/-- The log message of engine.py line 465. -/
def removeFailMsg : String :=
  "strategy removal failed, stop it first"

/-- StrategyEngine.remove_strategy (engine.py lines 461-482).  Returns none
when the name is unknown (the source would raise KeyError on the registry
lookup), otherwise the returned success flag and the engine afterwards.
save_strategy_setting persists the roster of registered names into
setting_file; save_json on the data file persists strategy_data. -/
def remove_strategy (e : Engine) (n : String) : Option (Bool × Engine) :=
  match getStrategy e n with
  | none => none
  | some s =>
      if s.trading then
        some (false, write_log e removeFailMsg (some s.strategy_name))
      else
        let e1 : Engine :=
          { e with
            symbol_strategy_map :=
              s.vt_symbols.foldl
                (fun msm sym => fun q => if q = sym then (msm q).erase n else msm q)
                e.symbol_strategy_map }
        let e2 : Engine :=
          { e1 with
            orderid_strategy_map := fun oid =>
              if oid ∈ s.active_orderids then none else e1.orderid_strategy_map oid }
        let e3 : Engine := { e2 with strategies := e2.strategies.filter (fun p => p.1 != n) }
        let e4 : Engine := { e3 with setting_file := e3.strategies.map Prod.fst }
        let e5 : Engine := { e4 with strategy_data := e4.strategy_data.erase n }
        let e6 : Engine := { e5 with data_file := e5.strategy_data }
        some (true, e6)

/-- The rebalancing decomposition exactly as the specification states it:
per instrument, with diff = target - pos, a positive diff first closes
min(diff, abs pos) of a short position (long close), then opens the
remainder if positive (long open), or opens the full diff when pos is not
negative; a negative diff is symmetric in the short direction.  This
definition follows the wording of the spec and is compared against the
embedded rebalance_portfolio, which follows the source. -/
def rebalanceOrdersSpec (calcPrice : String → Direction → Int → Int) (s : Strategy)
    (k : String) (bar : BarData) : List OrderCall :=
  let target := s.target_data k
  let pos := s.pos_data k
  let diff := target - pos
  if 0 < diff then
    let p := calcPrice k Direction.LONG bar.close_price
    if pos < 0 then
      { vt_symbol := k, direction := Direction.LONG, offset := Offset.CLOSE, price := p,
        volume := min diff |pos| } ::
        (if 0 < diff - min diff |pos| then
          [{ vt_symbol := k, direction := Direction.LONG, offset := Offset.OPEN, price := p,
             volume := diff - min diff |pos| }]
         else [])
    else
      [{ vt_symbol := k, direction := Direction.LONG, offset := Offset.OPEN, price := p,
         volume := diff }]
  else if diff < 0 then
    let p := calcPrice k Direction.SHORT bar.close_price
    if 0 < pos then
      { vt_symbol := k, direction := Direction.SHORT, offset := Offset.CLOSE, price := p,
        volume := min |diff| pos } ::
        (if 0 < |diff| - min |diff| pos then
          [{ vt_symbol := k, direction := Direction.SHORT, offset := Offset.OPEN, price := p,
             volume := |diff| - min |diff| pos }]
         else [])
    else
      [{ vt_symbol := k, direction := Direction.SHORT, offset := Offset.OPEN, price := p,
         volume := |diff| }]
  else []

/-! ## Concrete scenarios used by witnesses and counterexamples -/

def pbg0 : PBGState :=
  { bars := fun _ => none, last_ticks := fun _ => none, last_dts := fun _ => none, emitted := [] }

def tickA1 : TickData :=
  { vt_symbol := "A", datetime := ⟨1, 10, 0, 10, 0⟩, last_price := 5,
    volume := 100, turnover := 500, open_interest := 10 }

def tickA2 : TickData :=
  { vt_symbol := "A", datetime := ⟨1, 10, 0, 30, 0⟩, last_price := 6,
    volume := 120, turnover := 600, open_interest := 11 }

def tickA3 : TickData :=
  { vt_symbol := "A", datetime := ⟨1, 10, 1, 5, 0⟩, last_price := 7,
    volume := 130, turnover := 700, open_interest := 12 }

def stA2 : PBGState := update_tick (update_tick pbg0 tickA1) tickA2

def tickNegPrice : TickData :=
  { vt_symbol := "A", datetime := ⟨1, 10, 0, 0, 0⟩, last_price := -1,
    volume := 0, turnover := 0, open_interest := 0 }

def tickZeroPrice : TickData :=
  { vt_symbol := "A", datetime := ⟨1, 10, 0, 0, 0⟩, last_price := 0,
    volume := 3, turnover := 9, open_interest := 1 }

def barW : BarData :=
  { symbol := "A", datetime := ⟨1, 10, 0, 30, 0⟩, open_price := 5, high_price := 6,
    low_price := 5, close_price := 6, volume := 20, turnover := 100, open_interest := 11 }

def tickW1 : TickData :=
  { vt_symbol := "A", datetime := ⟨1, 10, 0, 30, 0⟩, last_price := 6,
    volume := 100, turnover := 500, open_interest := 11 }

def tickW2 : TickData :=
  { vt_symbol := "A", datetime := ⟨1, 10, 0, 40, 0⟩, last_price := 7,
    volume := 50, turnover := 200, open_interest := 12 }

def stW : PBGState :=
  { bars := fun s => if s = "A" then some barW else none
    last_ticks := fun s => if s = "A" then some tickW1 else none
    last_dts := fun s => if s = "A" then some ⟨1, 10, 0, 30, 0⟩ else none
    emitted := [] }

def barWafter : BarData :=
  { symbol := "A", datetime := ⟨1, 10, 0, 40, 0⟩, open_price := 5, high_price := 7,
    low_price := 5, close_price := 7, volume := 20, turnover := 100, open_interest := 12 }

def hw0 : HourGenState := { hour_bars := fun _ => none }

def barH0 : BarData :=
  { symbol := "A", datetime := ⟨1, 10, 0, 0, 0⟩, open_price := 5, high_price := 6,
    low_price := 4, close_price := 5, volume := 10, turnover := 50, open_interest := 7 }

def barH59 : BarData := { barH0 with datetime := ⟨1, 10, 59, 0, 0⟩ }

def barH1next : BarData := { barH0 with datetime := ⟨1, 11, 0, 0, 0⟩ }

def hwSt1 : HourGenState := (update_bar_hour_window hw0 barH0).1

def engineSendW : OrderCall → List String := fun _ => ["vt.1"]

def calcPriceW : String → Direction → Int → Int := fun _ _ reference => reference

def stratReb : Strategy :=
  { strategy_name := "alpha", vt_symbols := ["A"], inited := true, trading := true,
    pos_data := fun k => if k = "A" then -3 else 0,
    target_data := fun k => if k = "A" then 5 else 0,
    active_orderids := [] }

def barReb : BarData :=
  { symbol := "A", datetime := ⟨1, 10, 0, 0, 0⟩, open_price := 99, high_price := 101,
    low_price := 98, close_price := 100, volume := 1, turnover := 100, open_interest := 0 }

def barsReb : List (String × BarData) := [("A", barReb)]

def stratBal : Strategy :=
  { strategy_name := "beta", vt_symbols := ["A", "B"], inited := true, trading := true,
    pos_data := fun k => if k = "A" then 4 else if k = "B" then -2 else 0,
    target_data := fun k => if k = "A" then 4 else if k = "B" then -2 else 0,
    active_orderids := ["x1"] }

def barsBal : List (String × BarData) := [("A", barReb), ("B", { barReb with symbol := "B" })]

def stratNoTrade : Strategy :=
  { strategy_name := "gamma", vt_symbols := ["A"], inited := true, trading := false,
    pos_data := fun _ => 0, target_data := fun _ => 0, active_orderids := ["o9"] }

def ocW : OrderCall :=
  { vt_symbol := "A", direction := Direction.LONG, offset := Offset.OPEN,
    price := 10, volume := 1 }

def stratAl : Strategy :=
  { strategy_name := "alpha", vt_symbols := ["A"], inited := true, trading := true,
    pos_data := fun _ => 0, target_data := fun _ => 0, active_orderids := [] }

def stratBe : Strategy :=
  { strategy_name := "beta", vt_symbols := ["B"], inited := true, trading := true,
    pos_data := fun _ => 0, target_data := fun _ => 0, active_orderids := [] }

def engW : Engine :=
  { strategies := [("alpha", stratAl), ("beta", stratBe)]
    symbol_strategy_map := fun s => if s = "A" then ["alpha"] else if s = "B" then ["beta"] else []
    orderid_strategy_map := fun o => if o = "ord1" then some "alpha" else none
    vt_tradeids := []
    strategy_data := ["alpha", "beta"]
    setting_file := ["alpha", "beta"]
    data_file := ["alpha", "beta"]
    logs := [] }

def failCb : Strategy → CallOutcome := fun s => CallOutcome.exn s "boom"

def tradeW : TradeData :=
  { vt_tradeid := "t1", vt_orderid := "ord1", vt_symbol := "A",
    direction := Direction.LONG, volume := 3 }

/-! ## Bar-generator lemmas and claim theorems -/

theorem update_tick_bars_same (st : PBGState) (tick : TickData) (b : BarData)
    (hz : tick.last_price ≠ 0) (hb : st.bars tick.vt_symbol = some b) :
    (update_tick st tick).bars tick.vt_symbol =
      if emitCond st tick then none
      else some (addTickVolume (applyTick b tick) (st.last_ticks tick.vt_symbol) tick) := by
  unfold update_tick
  rw [if_neg hz]
  dsimp only
  rw [hb]
  cases he : emitCond st tick <;> simp [he]

theorem update_tick_bars_other (st : PBGState) (tick : TickData) (s : String)
    (hz : tick.last_price ≠ 0) (hs : s ≠ tick.vt_symbol) :
    (update_tick st tick).bars s = st.bars s := by
  unfold update_tick
  rw [if_neg hz]
  dsimp only
  cases hB : st.bars tick.vt_symbol <;> dsimp only
  · simp [hs]
  · cases he : emitCond st tick <;> simp [he, hs]

/-- Claim C4, code evaluated at the failing input: two ticks in minute 0
build an in-progress bar for symbol A; the first tick of minute 1 (price 7)
emits the finished minute-0 bar, but afterwards the stored in-progress bar
for A is none rather than a fresh bar with open, high, low and close equal
to 7 — the source clears self.bars yet the stale local variable skips the
creation branch, so the rollover tick opens no new bar. -/
theorem update_tick_rollover_drops_open_bar :
    (update_tick stA2 tickA3).bars "A" = none ∧
    (update_tick stA2 tickA3).emitted =
      [{ symbol := "A", datetime := ⟨1, 10, 0, 0, 0⟩, open_price := 5, high_price := 6,
         low_price := 5, close_price := 6, volume := 20, turnover := 100,
         open_interest := 11 }] := by
  decide

/-- Claim C6, counterexample: a tick whose last price is negative is not
filtered by the truthiness guard (not tick.last_price); update_tick
processes it and the aggregator state changes, refuting the claim that
every tick with non-positive last price leaves the state exactly as before. -/
theorem update_tick_negative_price_processed :
    tickNegPrice.last_price < 0 ∧
    (update_tick pbg0 tickNegPrice).bars "A" ≠ pbg0.bars "A" := by
  decide

/-- Claim C6, amended: a tick whose last price is absent or zero (the Python
falsy values of the float field) makes update_tick a no-op that never
raises: in-progress bars, last-tick map, last-timestamp map and the emitted
list are exactly as before the call. -/
theorem update_tick_zero_price_noop (st : PBGState) (tick : TickData)
    (h : tick.last_price = 0) : update_tick st tick = st := by
  simp [update_tick, h]

theorem update_tick_zero_price_noop_witness :
    tickZeroPrice.last_price = 0 ∧ update_tick pbg0 tickZeroPrice = pbg0 :=
  ⟨rfl, update_tick_zero_price_noop pbg0 tickZeroPrice rfl⟩

/-- Claim C8: across an update_tick call that keeps an in-progress bar for a
symbol, the bar volume and turnover never decrease, and when the cumulative
tick counters are at or below the previous tick values (a counter reset)
the accumulated values are exactly unchanged: the delta is floored at 0. -/
theorem update_tick_volume_monotone (st : PBGState) (tick : TickData) (sym : String)
    (b b2 : BarData)
    (hb : st.bars sym = some b)
    (hb2 : (update_tick st tick).bars sym = some b2) :
    (b.volume ≤ b2.volume ∧ b.turnover ≤ b2.turnover) ∧
    (∀ lt, st.last_ticks sym = some lt → tick.volume ≤ lt.volume →
      tick.turnover ≤ lt.turnover → b2.volume = b.volume ∧ b2.turnover = b.turnover) := by
  by_cases hz : tick.last_price = 0
  · rw [update_tick, if_pos hz, hb] at hb2
    obtain rfl : b = b2 := Option.some.inj hb2
    exact ⟨⟨le_refl _, le_refl _⟩, fun lt _ _ _ => ⟨rfl, rfl⟩⟩
  · by_cases hsym : sym = tick.vt_symbol
    · subst hsym
      rw [update_tick_bars_same st tick b hz hb] at hb2
      cases he : emitCond st tick
      · rw [he] at hb2
        simp only [Bool.false_eq_true, if_false] at hb2
        obtain rfl : addTickVolume (applyTick b tick) (st.last_ticks tick.vt_symbol) tick = b2 :=
          Option.some.inj hb2
        rcases hlt : st.last_ticks tick.vt_symbol with _ | lt
        · refine ⟨by simp [addTickVolume, applyTick], ?_⟩
          intro lt2 hlt2 _ _
          cases hlt2
        · refine ⟨?_, ?_⟩
          · simp only [addTickVolume, applyTick]
            exact ⟨le_add_of_nonneg_right (le_max_right _ _),
              le_add_of_nonneg_right (le_max_right _ _)⟩
          · intro lt2 hlt2 hv hto
            obtain rfl : lt = lt2 := Option.some.inj hlt2
            simp only [addTickVolume, applyTick]
            constructor
            · rw [max_eq_right (by omega : tick.volume - lt.volume ≤ 0), add_zero]
            · rw [max_eq_right (by omega : tick.turnover - lt.turnover ≤ 0), add_zero]
      · rw [he] at hb2
        simp at hb2
    · rw [update_tick_bars_other st tick sym hz hsym, hb] at hb2
      obtain rfl : b = b2 := Option.some.inj hb2
      exact ⟨⟨le_refl _, le_refl _⟩, fun lt _ _ _ => ⟨rfl, rfl⟩⟩

theorem update_tick_volume_monotone_witness :
    (barW.volume ≤ barWafter.volume ∧ barW.turnover ≤ barWafter.turnover) ∧
    (barWafter.volume = barW.volume ∧ barWafter.turnover = barW.turnover) := by
  have h := update_tick_volume_monotone stW tickW2 "A" barW barWafter (by decide) (by decide)
  exact ⟨h.1, h.2 tickW1 (by decide) (by decide) (by decide)⟩

/-- Claim C5, code evaluated at the failing input: after a bar of hour 10
minute 0 opens the running hour bar for symbol A, both the bar at minute 59
of hour 10 (normal end-of-hour) and a bar at hour 11 minute 0 (gap-driven
rollover) make update_bar_hour_window raise AttributeError: the push at
utility.py line 210 calls self.on_hour_bar, but the handler is named
on_hour_bars (line 212), so no finalized hour bar is ever emitted and the
call does not return normally. -/
theorem update_bar_hour_window_rollover_raises :
    (update_bar_hour_window hwSt1 barH59).2 = some (PyErr.attributeError missingHourAttrMsg) ∧
    (update_bar_hour_window hwSt1 barH1next).2 = some (PyErr.attributeError missingHourAttrMsg) := by
  decide

/-! ## Template lemmas and claim theorems -/

theorem send_order_core (engineSend : OrderCall → List String) (s : Strategy) (c : OrderCall) :
    (send_order engineSend s c).2.1.trading = s.trading ∧
    (send_order engineSend s c).2.1.pos_data = s.pos_data ∧
    (send_order engineSend s c).2.1.target_data = s.target_data := by
  unfold send_order
  split <;> exact ⟨rfl, rfl, rfl⟩

theorem send_order_trading_calls (engineSend : OrderCall → List String) (s : Strategy)
    (c : OrderCall) (ht : s.trading = true) :
    (send_order engineSend s c).2.2 = [c] := by
  simp [send_order, ht]

theorem rebalanceEntry_preserves (engineSend : OrderCall → List String)
    (calcPrice : String → Direction → Int → Int) (s : Strategy) (k : String) (bar : BarData) :
    (rebalanceEntry engineSend calcPrice s k bar).1.trading = s.trading ∧
    (rebalanceEntry engineSend calcPrice s k bar).1.pos_data = s.pos_data ∧
    (rebalanceEntry engineSend calcPrice s k bar).1.target_data = s.target_data := by
  unfold rebalanceEntry cover buy sell short
  dsimp only
  split_ifs <;>
    first
      | exact ⟨rfl, rfl, rfl⟩
      | · refine ⟨?_, ?_, ?_⟩ <;>
          simp only [(send_order_core engineSend _ _).1,
            (send_order_core engineSend _ _).2.1,
            (send_order_core engineSend _ _).2.2]

theorem rebalanceEntry_calls (engineSend : OrderCall → List String)
    (calcPrice : String → Direction → Int → Int) (s : Strategy) (k : String) (bar : BarData)
    (ht : s.trading = true) :
    (rebalanceEntry engineSend calcPrice s k bar).2 = rebalanceOrdersSpec calcPrice s k bar := by
  unfold rebalanceEntry rebalanceOrdersSpec get_target get_pos
  dsimp only
  by_cases h1 : 0 < s.target_data k - s.pos_data k
  · by_cases h2 : s.pos_data k < 0
    · have habs : 0 < |s.pos_data k| := abs_pos.mpr (ne_of_lt h2)
      have hcv : min (s.target_data k - s.pos_data k) |s.pos_data k| ≠ 0 :=
        (lt_min h1 habs).ne'
      have hble : min (s.target_data k - s.pos_data k) |s.pos_data k| ≤
          s.target_data k - s.pos_data k := min_le_left _ _
      by_cases h3 : s.target_data k - s.pos_data k
          - min (s.target_data k - s.pos_data k) |s.pos_data k| = 0
      · simp [h1, h2, hcv, h3, send_order, ht, cover, buy]
      · have h3p : 0 < s.target_data k - s.pos_data k
            - min (s.target_data k - s.pos_data k) |s.pos_data k| := by omega
        simp [h1, h2, hcv, h3, h3p, send_order, ht, cover, buy]
    · simp [h1, h2, send_order, ht, cover, buy]
      rw [if_neg (by omega : ¬(s.target_data k - s.pos_data k = 0))]
  · by_cases h4 : s.target_data k - s.pos_data k < 0
    · by_cases h2 : 0 < s.pos_data k
      · have habs : 0 < |s.target_data k - s.pos_data k| := abs_pos.mpr (ne_of_lt h4)
        have hsv : min |s.target_data k - s.pos_data k| (s.pos_data k) ≠ 0 :=
          (lt_min habs h2).ne'
        have hble : min |s.target_data k - s.pos_data k| (s.pos_data k) ≤
            |s.target_data k - s.pos_data k| := min_le_left _ _
        by_cases h3 : |s.target_data k - s.pos_data k|
            - min |s.target_data k - s.pos_data k| (s.pos_data k) = 0
        · simp [h1, h4, h2, hsv, h3, send_order, ht, sell, short]
        · have h3p : 0 < |s.target_data k - s.pos_data k|
              - min |s.target_data k - s.pos_data k| (s.pos_data k) := by omega
          simp [h1, h4, h2, hsv, h3, h3p, send_order, ht, sell, short]
      · have habs : |s.target_data k - s.pos_data k| ≠ 0 := abs_ne_zero.mpr (ne_of_lt h4)
        simp [h1, h4, h2, habs, send_order, ht, sell, short]
    · simp [h1, h4]

theorem rebalance_portfolio_calls_aux (engineSend : OrderCall → List String)
    (calcPrice : String → Direction → Int → Int) (bars : List (String × BarData)) :
    ∀ (s0 s : Strategy) (acc : List OrderCall),
      s.trading = s0.trading → s.pos_data = s0.pos_data → s.target_data = s0.target_data →
      s0.trading = true →
      (bars.foldl (fun acc p =>
        let r := rebalanceEntry engineSend calcPrice acc.1 p.1 p.2
        (r.1, acc.2 ++ r.2)) (s, acc)).2
        = acc ++ bars.flatMap (fun p => rebalanceOrdersSpec calcPrice s0 p.1 p.2) := by
  induction bars with
  | nil => intro s0 s acc _ _ _ _; simp
  | cons hd tl ih =>
      intro s0 s acc htr hpos htar h0
      have hspec : rebalanceOrdersSpec calcPrice s hd.1 hd.2 =
          rebalanceOrdersSpec calcPrice s0 hd.1 hd.2 := by
        unfold rebalanceOrdersSpec
        rw [hpos, htar]
      have hcalls := rebalanceEntry_calls engineSend calcPrice s hd.1 hd.2 (htr.trans h0)
      have hpres := rebalanceEntry_preserves engineSend calcPrice s hd.1 hd.2
      rw [List.foldl_cons]
      rw [ih s0 _ _ (hpres.1.trans htr) (hpres.2.1.trans hpos) (hpres.2.2.trans htar) h0]
      rw [hcalls, hspec, List.flatMap_cons, List.append_assoc]

/-- Claim C1 (amended): with trading enabled, the order requests forwarded
to the engine by rebalance_portfolio are, instrument by instrument in slice
order, exactly the decomposition the specification states: for diff > 0 and
pos < 0 first a long close of min(diff, abs pos) then, if positive, a long
open of the remainder; for diff > 0 and pos not negative a single long open
of diff; for diff < 0 the symmetric short decomposition; for diff = 0
nothing.  The amendment replaces the claim's concrete instance: pos = -3,
target = 5 gives diff = 8, a long close of volume 3 and a long open of
volume 5 (not 2). -/
theorem rebalance_portfolio_decomposes (engineSend : OrderCall → List String)
    (calcPrice : String → Direction → Int → Int) (s : Strategy)
    (bars : List (String × BarData)) (ht : s.trading = true) :
    (rebalance_portfolio engineSend calcPrice s bars).2 =
      bars.flatMap (fun p => rebalanceOrdersSpec calcPrice s p.1 p.2) := by
  have h := rebalance_portfolio_calls_aux engineSend calcPrice bars s s [] rfl rfl rfl ht
  simpa [rebalance_portfolio] using h

/-- Witness for the amended C1 at the instance named by the claim:
pos = -3, target = 5, so diff = 8; the code issues a long close of volume 3
followed by a long open of volume diff - 3 = 5. -/
theorem rebalance_portfolio_decomposes_witness :
    stratReb.trading = true ∧
    (rebalance_portfolio engineSendW calcPriceW stratReb barsReb).2 =
      [{ vt_symbol := "A", direction := Direction.LONG, offset := Offset.CLOSE,
         price := 100, volume := 3 },
       { vt_symbol := "A", direction := Direction.LONG, offset := Offset.OPEN,
         price := 100, volume := 5 }] :=
  ⟨rfl, (rebalance_portfolio_decomposes engineSendW calcPriceW stratReb barsReb rfl).trans
    (by decide)⟩

/-- Claim C1, counterexample to the stated concrete instance: with
pos = -3 and target = 5 the difference is 8, so the code issues a long
close of volume 3 and then a long open of volume 5 — not the open of
volume 2 the claim asserts. -/
theorem rebalance_neg3_target5_not_open2 :
    (rebalance_portfolio engineSendW calcPriceW stratReb barsReb).2 =
      [{ vt_symbol := "A", direction := Direction.LONG, offset := Offset.CLOSE,
         price := 100, volume := 3 },
       { vt_symbol := "A", direction := Direction.LONG, offset := Offset.OPEN,
         price := 100, volume := 5 }] ∧
    (rebalance_portfolio engineSendW calcPriceW stratReb barsReb).2 ≠
      [{ vt_symbol := "A", direction := Direction.LONG, offset := Offset.CLOSE,
         price := 100, volume := 3 },
       { vt_symbol := "A", direction := Direction.LONG, offset := Offset.OPEN,
         price := 100, volume := 2 }] := by
  decide

theorem rebalanceEntry_balanced (engineSend : OrderCall → List String)
    (calcPrice : String → Direction → Int → Int) (s : Strategy) (k : String) (bar : BarData)
    (h : get_target s k = get_pos s k) :
    rebalanceEntry engineSend calcPrice s k bar = (s, []) := by
  unfold get_target get_pos at h
  unfold rebalanceEntry get_target get_pos
  simp [h]

/-- Claim C7: if target equals position for every instrument of the bar
slice, rebalance_portfolio forwards no order request at all (no buy, sell,
short or cover reaches the engine) and leaves the strategy state unchanged,
whatever the position and target maps hold elsewhere. -/
theorem rebalance_portfolio_idempotent (engineSend : OrderCall → List String)
    (calcPrice : String → Direction → Int → Int) (s : Strategy)
    (bars : List (String × BarData))
    (h : ∀ p ∈ bars, get_target s p.1 = get_pos s p.1) :
    rebalance_portfolio engineSend calcPrice s bars = (s, []) := by
  unfold rebalance_portfolio
  have aux : ∀ (l : List (String × BarData)), (∀ p ∈ l, get_target s p.1 = get_pos s p.1) →
      ∀ acc : List OrderCall,
      (l.foldl (fun acc p =>
        let r := rebalanceEntry engineSend calcPrice acc.1 p.1 p.2
        (r.1, acc.2 ++ r.2)) (s, acc)) = (s, acc) := by
    intro l
    induction l with
    | nil => intro _ acc; rfl
    | cons hd tl ih =>
        intro hl acc
        rw [List.foldl_cons]
        have hhd := rebalanceEntry_balanced engineSend calcPrice s hd.1 hd.2
          (hl hd (List.mem_cons_self hd tl))
        rw [hhd]
        simpa using ih (fun p hp => hl p (List.mem_cons_of_mem hd hp)) acc
  exact aux bars h []

theorem rebalance_portfolio_idempotent_witness :
    (∀ p ∈ barsBal, get_target stratBal p.1 = get_pos stratBal p.1) ∧
    rebalance_portfolio engineSendW calcPriceW stratBal barsBal = (stratBal, []) :=
  ⟨by decide, rebalance_portfolio_idempotent engineSendW calcPriceW stratBal barsBal (by decide)⟩

/-- Claim C10: with the trading flag false, the template-level send_order —
and therefore buy, sell, short and cover — returns the empty id list,
forwards no request to the engine, and leaves the strategy (in particular
its active-order-id set) untouched. -/
theorem send_order_not_trading (engineSend : OrderCall → List String) (s : Strategy)
    (h : s.trading = false) :
    (∀ c, send_order engineSend s c = ([], s, [])) ∧
    (∀ k p v, buy engineSend s k p v = ([], s, []) ∧ sell engineSend s k p v = ([], s, []) ∧
      short engineSend s k p v = ([], s, []) ∧ cover engineSend s k p v = ([], s, [])) := by
  have hs : ∀ c, send_order engineSend s c = ([], s, []) := by
    intro c
    simp [send_order, h]
  exact ⟨hs, fun k p v => ⟨hs _, hs _, hs _, hs _⟩⟩

theorem send_order_not_trading_witness :
    stratNoTrade.trading = false ∧
    send_order engineSendW stratNoTrade ocW = ([], stratNoTrade, []) ∧
    buy engineSendW stratNoTrade "A" 10 1 = ([], stratNoTrade, []) ∧
    sell engineSendW stratNoTrade "A" 10 1 = ([], stratNoTrade, []) ∧
    short engineSendW stratNoTrade "A" 10 1 = ([], stratNoTrade, []) ∧
    cover engineSendW stratNoTrade "A" 10 1 = ([], stratNoTrade, []) :=
  ⟨rfl, (send_order_not_trading engineSendW stratNoTrade rfl).1 ocW,
    ((send_order_not_trading engineSendW stratNoTrade rfl).2 "A" 10 1).1,
    ((send_order_not_trading engineSendW stratNoTrade rfl).2 "A" 10 1).2.1,
    ((send_order_not_trading engineSendW stratNoTrade rfl).2 "A" 10 1).2.2.1,
    ((send_order_not_trading engineSendW stratNoTrade rfl).2 "A" 10 1).2.2.2⟩

/-! ## Engine lemmas and claim theorems -/

theorem find_set_ne (l : List (String × Strategy)) (n m : String) (s : Strategy) (hm : m ≠ n) :
    (l.map (fun p => if p.1 == n then (p.1, s) else p)).find? (fun p => p.1 == m) =
      l.find? (fun p => p.1 == m) := by
  induction l with
  | nil => rfl
  | cons a t ih =>
      by_cases ha : (a.1 == n) = true
      · have han : a.1 = n := beq_iff_eq.mp ha
        have ham : ¬(a.1 == m) = true := by
          rw [han]
          simpa using fun hnm => hm hnm.symm
        simp only [List.map_cons, ha, if_true]
        simp only [List.find?_cons, ham, Bool.false_eq_true, if_false]
        exact ih
      · simp only [List.map_cons, ha, Bool.false_eq_true, if_false]
        by_cases hb : (a.1 == m) = true
        · simp [List.find?_cons, hb]
        · simp only [List.find?_cons, hb, Bool.false_eq_true, if_false]
          exact ih

theorem find_set_self (l : List (String × Strategy)) (n : String) (s : Strategy)
    (h : (l.find? (fun p => p.1 == n)).isSome = true) :
    (l.map (fun p => if p.1 == n then (p.1, s) else p)).find? (fun p => p.1 == n) =
      some (n, s) := by
  induction l with
  | nil => cases h
  | cons a t ih =>
      by_cases ha : (a.1 == n) = true
      · have han : a.1 = n := beq_iff_eq.mp ha
        simp only [List.map_cons, ha, if_true]
        simp [List.find?_cons, ha, han]
      · simp only [List.find?_cons, ha, Bool.false_eq_true, if_false] at h
        simp only [List.map_cons, ha, Bool.false_eq_true, if_false]
        simp only [List.find?_cons, ha, Bool.false_eq_true, if_false]
        exact ih h

theorem getStrategy_setStrategy_self (e : Engine) (n : String) (s0 s : Strategy)
    (h : getStrategy e n = some s0) :
    getStrategy (setStrategy e n s) n = some s := by
  unfold getStrategy at h ⊢
  unfold setStrategy
  dsimp only
  have hsome : (e.strategies.find? (fun p => p.1 == n)).isSome = true := by
    rcases hf : e.strategies.find? (fun p => p.1 == n) with _ | p
    · rw [hf] at h
      cases h
    · rw [hf]
      rfl
  rw [find_set_self e.strategies n s hsome]
  rfl

theorem getStrategy_setStrategy_ne (e : Engine) (n m : String) (s : Strategy) (hm : m ≠ n) :
    getStrategy (setStrategy e n s) m = getStrategy e m := by
  unfold getStrategy setStrategy
  dsimp only
  rw [find_set_ne e.strategies n m s hm]

theorem call_strategy_func_ok (e : Engine) (n : String) (f : Strategy → CallOutcome)
    (s s2 : Strategy) (h1 : getStrategy e n = some s) (h2 : f s = CallOutcome.ok s2) :
    call_strategy_func e n f = setStrategy e n s2 := by
  unfold call_strategy_func
  rw [h1]
  dsimp only
  rw [h2]

theorem call_strategy_func_tradeids (e : Engine) (n : String) (f : Strategy → CallOutcome) :
    (call_strategy_func e n f).vt_tradeids = e.vt_tradeids := by
  unfold call_strategy_func
  cases h : getStrategy e n with
  | none => rfl
  | some s =>
      dsimp only
      cases f s <;> rfl

/-- Claim C2: when a strategy callback raises, call_strategy_func leaves the
strategy with inited = false and trading = false, appends one log entry
carrying the strategy name and the failure traceback, itself returns
normally (the embedding is a total function on engine states), and leaves
the state of every other strategy unchanged. -/
theorem call_strategy_func_fault (e : Engine) (n : String) (f : Strategy → CallOutcome)
    (s sp : Strategy) (tb : String)
    (h1 : getStrategy e n = some s) (h2 : f s = CallOutcome.exn sp tb) :
    (∃ s2, getStrategy (call_strategy_func e n f) n = some s2 ∧
      s2.inited = false ∧ s2.trading = false) ∧
    (call_strategy_func e n f).logs = e.logs ++ [s.strategy_name ++ ": " ++ faultMsg tb] ∧
    (∀ m, m ≠ n → getStrategy (call_strategy_func e n f) m = getStrategy e m) := by
  have hcf : call_strategy_func e n f =
      write_log (setStrategy e n { sp with trading := false, inited := false })
        (faultMsg tb) (some s.strategy_name) := by
    unfold call_strategy_func
    rw [h1]
    dsimp only
    rw [h2]
  rw [hcf]
  refine ⟨⟨{ sp with trading := false, inited := false }, ?_, rfl, rfl⟩, rfl, ?_⟩
  · have hw : getStrategy (write_log (setStrategy e n
        { sp with trading := false, inited := false }) (faultMsg tb) (some s.strategy_name)) n =
        getStrategy (setStrategy e n { sp with trading := false, inited := false }) n := rfl
    rw [hw]
    exact getStrategy_setStrategy_self e n s _ h1
  · intro m hm
    have hw : getStrategy (write_log (setStrategy e n
        { sp with trading := false, inited := false }) (faultMsg tb) (some s.strategy_name)) m =
        getStrategy (setStrategy e n { sp with trading := false, inited := false }) m := rfl
    rw [hw]
    exact getStrategy_setStrategy_ne e n m _ hm

theorem call_strategy_func_fault_witness :
    (∃ s2, getStrategy (call_strategy_func engW "alpha" failCb) "alpha" = some s2 ∧
      s2.inited = false ∧ s2.trading = false) ∧
    (call_strategy_func engW "alpha" failCb).logs =
      engW.logs ++ ["alpha" ++ ": " ++ faultMsg "boom"] ∧
    (∀ m, m ≠ "alpha" →
      getStrategy (call_strategy_func engW "alpha" failCb) m = getStrategy engW m) :=
  call_strategy_func_fault engW "alpha" failCb stratAl stratAl "boom"
    (by simp [getStrategy, engW]) rfl

theorem process_trade_event_mem (e : Engine) (t : TradeData)
    (h : t.vt_tradeid ∈ e.vt_tradeids) : process_trade_event e t = e := by
  unfold process_trade_event
  rw [if_pos h]

/-- Claim C3: a trade event with a fresh trade id whose order id belongs to
a registered strategy updates that strategy position once (adding the
volume for a long fill, subtracting it for short) and leaves every other
strategy unchanged; delivering the identical trade event a second time is
dropped by the trade-id filter and changes nothing at all. -/
theorem process_trade_event_dedup (e : Engine) (t : TradeData) (n : String) (s : Strategy)
    (h0 : t.vt_tradeid ∉ e.vt_tradeids)
    (h1 : e.orderid_strategy_map t.vt_orderid = some n)
    (h2 : getStrategy e n = some s) :
    (∃ s1, getStrategy (process_trade_event e t) n = some s1 ∧
      s1.pos_data t.vt_symbol =
        (if t.direction = Direction.LONG then s.pos_data t.vt_symbol + t.volume
         else s.pos_data t.vt_symbol - t.volume)) ∧
    process_trade_event (process_trade_event e t) t = process_trade_event e t ∧
    (∀ m, m ≠ n → getStrategy (process_trade_event e t) m = getStrategy e m) := by
  have hstep : process_trade_event e t =
      call_strategy_func { e with vt_tradeids := t.vt_tradeid :: e.vt_tradeids } n
        (fun s => CallOutcome.ok (update_trade s t)) := by
    unfold process_trade_event
    rw [if_neg h0]
    dsimp only
    rw [h1]
  have h2e1 : getStrategy { e with vt_tradeids := t.vt_tradeid :: e.vt_tradeids } n = some s := h2
  have hok : call_strategy_func { e with vt_tradeids := t.vt_tradeid :: e.vt_tradeids } n
      (fun s => CallOutcome.ok (update_trade s t)) =
      setStrategy { e with vt_tradeids := t.vt_tradeid :: e.vt_tradeids } n (update_trade s t) :=
    call_strategy_func_ok _ n _ s (update_trade s t) h2e1 rfl
  refine ⟨⟨update_trade s t, ?_, ?_⟩, ?_, ?_⟩
  · rw [hstep, hok]
    exact getStrategy_setStrategy_self _ n s _ h2e1
  · by_cases hdir : t.direction = Direction.LONG <;> simp [update_trade, hdir]
  · have hmem : t.vt_tradeid ∈ (process_trade_event e t).vt_tradeids := by
      rw [hstep, call_strategy_func_tradeids]
      exact List.mem_cons_self _ _
    exact process_trade_event_mem _ t hmem
  · intro m hm
    rw [hstep, hok]
    exact getStrategy_setStrategy_ne _ n m _ hm

theorem process_trade_event_dedup_witness :
    (∃ s1, getStrategy (process_trade_event engW tradeW) "alpha" = some s1 ∧
      s1.pos_data tradeW.vt_symbol =
        (if tradeW.direction = Direction.LONG then
          stratAl.pos_data tradeW.vt_symbol + tradeW.volume
         else stratAl.pos_data tradeW.vt_symbol - tradeW.volume)) ∧
    process_trade_event (process_trade_event engW tradeW) tradeW =
      process_trade_event engW tradeW ∧
    (∀ m, m ≠ "alpha" →
      getStrategy (process_trade_event engW tradeW) m = getStrategy engW m) :=
  process_trade_event_dedup engW tradeW "alpha" stratAl (by simp [engW])
    (by simp [engW, tradeW]) (by simp [getStrategy, engW])

/-- Claim C9: remove_strategy on a registered strategy whose trading flag is
true returns failure, appends one log entry, and leaves every piece of
engine state unchanged: the strategy stays in the registry, the instrument
routing table, the order-id correlation table, the strategy-data store and
both persisted files are untouched. -/
theorem remove_strategy_trading_guard (e : Engine) (n : String) (s : Strategy)
    (h1 : getStrategy e n = some s) (h2 : s.trading = true) :
    remove_strategy e n = some (false, write_log e removeFailMsg (some s.strategy_name)) ∧
    (write_log e removeFailMsg (some s.strategy_name)).strategies = e.strategies ∧
    getStrategy (write_log e removeFailMsg (some s.strategy_name)) n = some s ∧
    (write_log e removeFailMsg (some s.strategy_name)).symbol_strategy_map =
      e.symbol_strategy_map ∧
    (write_log e removeFailMsg (some s.strategy_name)).orderid_strategy_map =
      e.orderid_strategy_map ∧
    (write_log e removeFailMsg (some s.strategy_name)).strategy_data = e.strategy_data ∧
    (write_log e removeFailMsg (some s.strategy_name)).setting_file = e.setting_file ∧
    (write_log e removeFailMsg (some s.strategy_name)).data_file = e.data_file ∧
    (write_log e removeFailMsg (some s.strategy_name)).logs =
      e.logs ++ [s.strategy_name ++ ": " ++ removeFailMsg] := by
  have hrm : remove_strategy e n =
      some (false, write_log e removeFailMsg (some s.strategy_name)) := by
    unfold remove_strategy
    rw [h1]
    dsimp only
    rw [if_pos h2]
  exact ⟨hrm, rfl, h1, rfl, rfl, rfl, rfl, rfl, rfl⟩

theorem remove_strategy_trading_guard_witness :
    remove_strategy engW "alpha" =
      some (false, write_log engW removeFailMsg (some "alpha")) ∧
    getStrategy (write_log engW removeFailMsg (some "alpha")) "alpha" = some stratAl ∧
    (write_log engW removeFailMsg (some "alpha")).logs =
      engW.logs ++ ["alpha" ++ ": " ++ removeFailMsg] := by
  have h := remove_strategy_trading_guard engW "alpha" stratAl (by simp [getStrategy, engW]) rfl
  exact ⟨h.1, h.2.2.1, h.2.2.2.2.2.2.2.2⟩
